import Mathlib

/-!
Shallow embedding of the Washco authentication core:
the auth repository (src/backend/src/modules/auth/auth.repository.js),
the auth service and controller (src/unnamed/part_001), and the request
validation schemas of the auth router (src/unnamed/part_002).

Conventions of the embedding:
- JavaScript values that may be `undefined` or `null` are `Option` values.
- A thrown error is an `Except.error`; the error-handler classes
  (ConflictError, UnauthorizedError, BadRequestError) become constructors
  of `AuthErr` carrying the exact message string, since the code
  distinguishes refresh-token failure kinds only by message.
  A JavaScript runtime `TypeError` (a crash that the error middleware
  surfaces as a generic 500, distinct from every auth error kind) is the
  `typeError` constructor.
- The database is a `Store` value threaded explicitly; each service
  operation returns `Except AuthErr result × Store`, where the store
  component is the state at the moment the operation returned or threw
  (all repository writes in these operations happen after the last
  possible throw, so the abort state equals the entry state on error).
- Wall-clock time (`Date.now`, `new Date()`) enters as an explicit `now`
  parameter in milliseconds; the configured refresh lifetime
  (`parseDuration(config.jwt.refreshExpiresIn)`) as a `lifetime` parameter.
- String manipulation is performed on the underlying character lists so
  that every definition reduces inside the kernel.
-/

namespace Washco

/-- Lowercasing of a string, modelling the JavaScript `String.toLowerCase`
on the ASCII identifiers used by the repository. -/
def toLowerCase (s : String) : String := ⟨s.data.map Char.toLower⟩

/-- Truthiness of a JavaScript string value: `undefined`, `null` and the
empty string are falsy. -/
def jsTruthy : Option String → Bool
  | none => false
  | some s => s != ""

/-- The JavaScript expression `a || b` on two possibly-absent strings. -/
def jsOr (a b : Option String) : Option String :=
  if jsTruthy a then a else b

/-- The JavaScript expression `a || null` on a possibly-absent string. -/
def jsOrNull (a : Option String) : Option String :=
  if jsTruthy a then a else none

/-- The JavaScript expression `a || b` where `b` is a present string, so
the result is a present string. -/
def jsOrD (a : Option String) (b : String) : String :=
  match a with
  | some s => if s != "" then s else b
  | none => b

/-- The JavaScript expression `email.split(Char.ofNat 64)[0]`: the part of
the string before the first at-sign (the whole string when none occurs). -/
def localPart (em : String) : String :=
  ⟨em.data.takeWhile (fun c => c != '@')⟩

/-- Error raised by an auth operation. The first four constructors mirror
the error-handler classes thrown by the auth service and middleware, with
the exact message; `typeError` models a JavaScript runtime TypeError,
which no handler converts — it surfaces as a generic 500. -/
inductive AuthErr where
  | conflict (msg : String)
  | unauthorized (msg : String)
  | badRequest (msg : String)
  | validation (msg : String)
  | typeError (msg : String)
deriving DecidableEq, Repr

/-- A row of the `users` table, with the columns the auth module reads.
`passwordHash` is nullable (Google-only accounts, migration 004); so are
`phone`, `tenantId`, `googleId` and `avatarUrl`. The `created_at` column
is never consulted by the auth logic and is omitted. -/
structure User where
  id : Nat
  email : String
  passwordHash : Option String
  fullName : String
  phone : Option String
  role : String
  tenantId : Option Nat
  isVerified : Bool
  googleId : Option String
  avatarUrl : Option String
deriving DecidableEq, Repr

/-- A row of the `refresh_tokens` table: serial id, owning user, hash of
the opaque token, expiry timestamp (ms), revocation flag (defaults to
false on insert). -/
structure RefreshTokenRecord where
  id : Nat
  userId : Nat
  tokenHash : String
  expiresAt : Nat
  isRevoked : Bool
deriving DecidableEq, Repr

/-- The database state consumed by the auth module: the `users` and
`refresh_tokens` tables plus the next values of their serial id columns. -/
structure Store where
  users : List User
  tokens : List RefreshTokenRecord
  nextUserId : Nat
  nextTokenId : Nat
deriving DecidableEq, Repr

/-- Model of `argon2.hash(password, {type: argon2id, memoryCost: 2^16,
timeCost: 3, parallelism: 1})`. The salted digest is modelled as a
deterministic injective tagged encoding, which preserves exactly the
verification semantics the service relies on: a stored hash verifies
against a plaintext iff the hash was produced from that plaintext, and a
hash is never equal to its plaintext. -/
def argon2Hash (pw : String) : String := "$argon2id$" ++ pw

/-- Model of `argon2.verify(hash, plain)` for a present string hash:
node-argon2 throws a TypeError when `plain` is not a string, and returns
whether the digest matches otherwise. -/
def argon2VerifyS (h : String) (plain : Option String) : Except AuthErr Bool :=
  match plain with
  | none => .error (.typeError "argon2 verify: plain must be a string")
  | some p => .ok (h == argon2Hash p)

/-- Model of `argon2.verify(hash, plain)` where the hash read from the
database may be null: node-argon2 throws a TypeError on a non-string
hash (it never reports a clean mismatch). -/
def argon2Verify (h : Option String) (plain : Option String) : Except AuthErr Bool :=
  match h with
  | none => .error (.typeError "argon2 verify: hash must be a string")
  | some hs => argon2VerifyS hs plain

/-- Modelled from the spec: `hashToken` of utils/helpers.js, whose source
is not part of the snapshot. The spec describes it as a deterministic
one-way digest of the opaque refresh token, used only for storage and
lookup by equality; it is modelled as an injective tagged encoding, so
determinism and injectivity hold and the digest never equals the
plaintext. -/
def hashToken (t : String) : String := "sha256:" ++ t

/-- The claim set of the signed access token minted by
`generateAccessToken` (`jwt.sign({userId, email, role, tenantId}, ...)`).
The signature and encoding are elided; the claims are the content. -/
structure AccessClaims where
  userId : Nat
  email : String
  role : String
  tenantId : Option Nat
deriving DecidableEq, Repr

/-- Helper `generateAccessToken(user)` of the auth service: signs the
user id, email, role and tenant id. -/
def generateAccessToken (id : Nat) (email role : String) (tenantId : Option Nat) : AccessClaims :=
  ⟨id, email, role, tenantId⟩

/-- Result triple of the service helper `generateRefreshToken()`. -/
structure RefreshTokenTriple where
  refreshToken : String
  refreshTokenHash : String
  expiresAt : Nat
deriving DecidableEq, Repr

/-- Helper `generateRefreshToken()` of the auth service. The fresh
randomness of `generateToken(32)` (utils/helpers.js, absent from the
snapshot; per the spec, at least 32 bytes of entropy) enters as the
`newToken` parameter; `Date.now()` and the parsed refresh lifetime enter
as `now` and `lifetime`. -/
def generateRefreshToken (newToken : String) (now lifetime : Nat) : RefreshTokenTriple :=
  ⟨newToken, hashToken newToken, now + lifetime⟩

/-! ## Repository (auth.repository.js) -/

/-- Repository `findByEmail` specialised to a present string argument:
`SELECT ... FROM users WHERE email = $1` with the lowercased input. -/
def findByEmailS (s : Store) (e : String) : Option User :=
  s.users.find? (fun u => u.email == toLowerCase e)

/-- Repository `findByEmail(email)` as called from JavaScript: when the
argument is `undefined`, the expression `email.toLowerCase()` throws a
TypeError before any query runs. -/
def findByEmail (s : Store) (email : Option String) : Except AuthErr (Option User) :=
  match email with
  | none => .error (.typeError "Cannot read properties of undefined (reading toLowerCase)")
  | some e => .ok (findByEmailS s e)

/-- Repository `findById(id)`. The SELECT list omits `password_hash`, so
the returned row carries none. -/
def findById (s : Store) (id : Nat) : Option User :=
  (s.users.find? (fun u => u.id == id)).map (fun u => { u with passwordHash := none })

/-- Repository `findByGoogleId(googleId)`. -/
def findByGoogleId (s : Store) (googleId : String) : Option User :=
  s.users.find? (fun u => u.googleId == some googleId)

/-- Repository `create`: inserts a user with the email lowercased, the
phone defaulted through `phone || null`, and
`is_verified = (role === super_admin) || !!googleId`. -/
def create (s : Store) (email : String) (passwordHash : Option String)
    (fullName : String) (phone : Option String) (role : String)
    (tenantId : Option Nat) (googleId : Option String) (avatarUrl : Option String) :
    User × Store :=
  let u : User :=
    { id := s.nextUserId
      email := toLowerCase email
      passwordHash := passwordHash
      fullName := fullName
      phone := jsOrNull phone
      role := role
      tenantId := tenantId
      isVerified := role == "super_admin" || jsTruthy googleId
      googleId := googleId
      avatarUrl := avatarUrl }
  (u, { s with users := u :: s.users, nextUserId := s.nextUserId + 1 })

/-- The data object accepted by repository `update`: an outer `none`
means the property is absent (`undefined`, column not touched); for the
nullable columns an inner `none` means the column is set to NULL. The
update list never includes `password_hash`. -/
structure UpdateData where
  fullName : Option String := none
  phone : Option (Option String) := none
  isVerified : Option Bool := none
  tenantId : Option (Option Nat) := none
  googleId : Option (Option String) := none
  avatarUrl : Option (Option String) := none
deriving DecidableEq, Repr

/-- Application of the SET clauses built by repository `update` to one
row. -/
def applyUpdate (d : UpdateData) (u : User) : User :=
  { u with
    fullName := d.fullName.getD u.fullName
    phone := match d.phone with | some v => v | none => u.phone
    isVerified := d.isVerified.getD u.isVerified
    tenantId := match d.tenantId with | some v => v | none => u.tenantId
    googleId := match d.googleId with | some v => v | none => u.googleId
    avatarUrl := match d.avatarUrl with | some v => v | none => u.avatarUrl }

/-- Whether the data object carries at least one property to update. -/
def UpdateData.hasFields (d : UpdateData) : Bool :=
  d.fullName.isSome || d.phone.isSome || d.isVerified.isSome ||
  d.tenantId.isSome || d.googleId.isSome || d.avatarUrl.isSome

/-- Repository `update(id, data)`: returns null when no property is
present, otherwise updates the matching row and returns it. -/
def update (s : Store) (id : Nat) (d : UpdateData) : Option User × Store :=
  if d.hasFields then
    let users2 := s.users.map (fun u => if u.id == id then applyUpdate d u else u)
    (users2.find? (fun u => u.id == id), { s with users := users2 })
  else
    (none, s)

/-- Repository `createRefreshToken(userId, tokenHash, expiresAt)`:
inserts a row whose `is_revoked` column takes its default, false. -/
def createRefreshToken (s : Store) (userId : Nat) (tokenHash : String) (expiresAt : Nat) : Store :=
  { s with
    tokens := ⟨s.nextTokenId, userId, tokenHash, expiresAt, false⟩ :: s.tokens
    nextTokenId := s.nextTokenId + 1 }

/-- Repository `findRefreshToken(tokenHash)`: the refresh-token row with
the given hash joined with its owning user row. -/
def findRefreshToken (s : Store) (tokenHash : String) : Option (RefreshTokenRecord × User) :=
  (s.tokens.find? (fun r => r.tokenHash == tokenHash)).bind
    (fun r => (s.users.find? (fun u => u.id == r.userId)).map (fun u => (r, u)))

/-- Repository `revokeRefreshToken(tokenHash)`: sets `is_revoked` on
every row with the given hash. -/
def revokeRefreshToken (s : Store) (tokenHash : String) : Store :=
  { s with tokens := s.tokens.map (fun r => if r.tokenHash == tokenHash then { r with isRevoked := true } else r) }

/-- Repository `revokeAllUserTokens(userId)`: sets `is_revoked` on every
row owned by the user. -/
def revokeAllUserTokens (s : Store) (userId : Nat) : Store :=
  { s with tokens := s.tokens.map (fun r => if r.userId == userId then { r with isRevoked := true } else r) }

/-- Repository `updatePassword(id, passwordHash)`. -/
def updatePassword (s : Store) (id : Nat) (passwordHash : String) : Store :=
  { s with users := s.users.map (fun u => if u.id == id then { u with passwordHash := some passwordHash } else u) }

/-! ## Service (auth.service.js, src/unnamed/part_001 lines 426-733) -/

/-- The public user view returned by service `register`. -/
structure RegisterView where
  id : Nat
  email : String
  fullName : String
  role : String
deriving DecidableEq, Repr

/-- The user view embedded in the result of service `login` and
`googleSignIn`. -/
structure LoginUserView where
  id : Nat
  email : String
  fullName : String
  role : String
  tenantId : Option Nat
  avatarUrl : Option String
deriving DecidableEq, Repr

/-- The result of service `login` and `googleSignIn`: user view, signed
access token, opaque refresh token plaintext and its expiry. -/
structure LoginResult where
  user : LoginUserView
  accessToken : AccessClaims
  refreshToken : String
  expiresAt : Nat
deriving DecidableEq, Repr

/-- The user view embedded in the result of service
`refreshAccessToken` (built from the joined row; no avatar field). -/
structure RefreshUserView where
  id : Nat
  email : String
  fullName : String
  role : String
  tenantId : Option Nat
deriving DecidableEq, Repr

/-- The result of service `refreshAccessToken`. -/
structure RefreshResult where
  accessToken : AccessClaims
  user : RefreshUserView
deriving DecidableEq, Repr

/-- Service `register({email, password, fullName, phone, role})`: reject
when `findByEmail` finds a user, else hash the password, create the user
and return the public view. -/
def register (s : Store) (email password fullName : String) (phone : Option String)
    (role : String) : Except AuthErr RegisterView × Store :=
  match findByEmailS s email with
  | some _ => (.error (.conflict "An account with this email already exists."), s)
  | none =>
    let passwordHash := argon2Hash password
    let (u, s2) := create s email (some passwordHash) fullName phone role none none none
    (.ok { id := u.id, email := u.email, fullName := u.fullName, role := u.role }, s2)

/-- Service `login({email, password})`: find the user by email (a
TypeError escapes when the destructured `email` is undefined, as happens
on the controller path), verify the password with argon2 (a TypeError
escapes when the stored hash is null), then mint and persist tokens.
`newToken` is the fresh refresh-token plaintext, `now` the clock and
`lifetime` the configured refresh lifetime. -/
def login (s : Store) (email : Option String) (password : String)
    (newToken : String) (now lifetime : Nat) : Except AuthErr LoginResult × Store :=
  match findByEmail s email with
  | .error e => (.error e, s)
  | .ok none => (.error (.unauthorized "Invalid email or password."), s)
  | .ok (some user) =>
    match argon2Verify user.passwordHash (some password) with
    | .error e => (.error e, s)
    | .ok false => (.error (.unauthorized "Invalid email or password."), s)
    | .ok true =>
      let accessToken := generateAccessToken user.id user.email user.role user.tenantId
      let t := generateRefreshToken newToken now lifetime
      let s2 := createRefreshToken s user.id t.refreshTokenHash t.expiresAt
      (.ok { user := { id := user.id, email := user.email, fullName := user.fullName,
                       role := user.role, tenantId := user.tenantId, avatarUrl := user.avatarUrl }
             accessToken := accessToken
             refreshToken := t.refreshToken
             expiresAt := t.expiresAt }, s2)

/-- The claims of a Google ID token after successful verification by the
Google OAuth2 client: stable subject id, and possibly-absent email,
display name and picture URL. -/
structure GooglePayload where
  sub : String
  email : Option String
  name : Option String
  picture : Option String
deriving DecidableEq, Repr

/-- The user-resolution block of service `googleSignIn` (lines 534-557
of the service source): find by Google id, else find by email and link
(set googleId, avatar from `picture || user.avatar_url`, verified true),
else create a new customer account. Returns the resolved user row
(`none` when the repository update returned no row) and the store. -/
def resolveGoogleUser (s : Store) (payload : GooglePayload) (em : String) :
    Option User × Store :=
  match findByGoogleId s payload.sub with
  | some user => (some user, s)
  | none =>
    match findByEmailS s em with
    | some user =>
      update s user.id
        { googleId := some (some payload.sub)
          avatarUrl := some (jsOr payload.picture user.avatarUrl)
          isVerified := some true }
    | none =>
      let p := create s em none (jsOrD payload.name (localPart em))
        (none) "customer" none (some payload.sub) (jsOrNull payload.picture)
      (some p.1, p.2)

/-- Service `googleSignIn({idToken})`. The configured client id enters as
`clientId`; the outcome of `client.verifyIdToken` enters as `verified`
(`none` when verification threw). The user is resolved through
`resolveGoogleUser`; tokens are minted and persisted as in `login`. -/
def googleSignIn (s : Store) (clientId : Option String) (verified : Option GooglePayload)
    (newToken : String) (now lifetime : Nat) : Except AuthErr LoginResult × Store :=
  if !(jsTruthy clientId) then (.error (.badRequest "Google Sign-In is not configured."), s)
  else
    match verified with
    | none => (.error (.unauthorized "Invalid Google token."), s)
    | some payload =>
      if !(jsTruthy payload.email) then
        (.error (.badRequest "Google account does not have an email address."), s)
      else
        match resolveGoogleUser s payload (payload.email.getD "") with
        | (none, s2) => (.error (.typeError "Cannot read properties of undefined (reading id)"), s2)
        | (some user, s2) =>
          let accessToken := generateAccessToken user.id user.email user.role user.tenantId
          let t := generateRefreshToken newToken now lifetime
          let s3 := createRefreshToken s2 user.id t.refreshTokenHash t.expiresAt
          (.ok { user := { id := user.id, email := user.email, fullName := user.fullName,
                           role := user.role, tenantId := user.tenantId, avatarUrl := user.avatarUrl }
                 accessToken := accessToken
                 refreshToken := t.refreshToken
                 expiresAt := t.expiresAt }, s3)

/-- Service `refreshAccessToken(refreshToken)`: reject a falsy token,
look the hash up, reject a revoked then an expired record
(`new Date(expires_at) < new Date()`, so expired means strictly before
`now`), else mint a new access token from the joined user row. The
function performs no repository write, so the store passes through
unchanged. -/
def refreshAccessToken (s : Store) (refreshToken : Option String) (now : Nat) :
    Except AuthErr RefreshResult × Store :=
  if !(jsTruthy refreshToken) then (.error (.unauthorized "Refresh token required."), s)
  else
    let tokenHash := hashToken (refreshToken.getD "")
    match findRefreshToken s tokenHash with
    | none => (.error (.unauthorized "Invalid refresh token."), s)
    | some (r, u) =>
      if r.isRevoked then (.error (.unauthorized "Refresh token has been revoked."), s)
      else if r.expiresAt < now then (.error (.unauthorized "Refresh token has expired."), s)
      else
        (.ok { accessToken := generateAccessToken r.userId u.email u.role u.tenantId
               user := { id := r.userId, email := u.email, fullName := u.fullName,
                         role := u.role, tenantId := u.tenantId } }, s)

/-- Service `logout(refreshToken)`: no-op on a falsy token, else revoke
the record with the token hash. -/
def logout (s : Store) (refreshToken : Option String) : Store :=
  if !(jsTruthy refreshToken) then s
  else revokeRefreshToken s (hashToken (refreshToken.getD ""))

/-- Service `logoutAll(userId)`. -/
def logoutAll (s : Store) (userId : Nat) : Store :=
  revokeAllUserTokens s userId

/-- Service `changePassword(userId, currentPassword, newPassword)`: the
code dereferences `.email` on the result of `findById`, so a missing
user raises a TypeError; a truthy stored hash is verified against the
current password, a falsy one skips the check; then the new password is
hashed and persisted. -/
def changePassword (s : Store) (userId : Nat) (currentPassword : Option String)
    (newPassword : String) : Except AuthErr String × Store :=
  match findById s userId with
  | none => (.error (.typeError "Cannot read properties of null (reading email)"), s)
  | some u0 =>
    match findByEmailS s u0.email with
    | none => (.error (.badRequest "User not found."), s)
    | some user =>
      let verdict : Except AuthErr Unit :=
        if jsTruthy user.passwordHash then
          match argon2Verify user.passwordHash currentPassword with
          | .error e => .error e
          | .ok false => .error (.unauthorized "Current password is incorrect.")
          | .ok true => .ok ()
        else .ok ()
      match verdict with
      | .error e => (.error e, s)
      | .ok () =>
        let newHash := argon2Hash newPassword
        (.ok "Password changed successfully.", updatePassword s userId newHash)

/-! ## Router validation and controllers
(src/unnamed/part_002 schemas with the validateBody middleware,
src/unnamed/part_001 lines 108-425 controllers) -/

/-- Splitting of a character list at every occurrence of a separator,
modelling the JavaScript `String.split` used to reason about the Joi
email format. -/
def splitChars (sep : Char) : List Char → List (List Char)
  | [] => [[]]
  | c :: cs =>
    match splitChars sep cs with
    | [] => [[]]
    | g :: gs => if c == sep then [] :: g :: gs else (c :: g) :: gs

/-- Shallow model of the format accepted by `Joi.string().email()`: one
at-sign separating a nonempty local part from a domain of at least two
nonempty dot-separated labels. -/
def joiEmail (s : String) : Bool :=
  match splitChars '@' s.data with
  | [l, d] =>
    !l.isEmpty && !d.isEmpty &&
      (let ps := splitChars '.' d
       decide (2 ≤ ps.length) && ps.all (fun p => !p.isEmpty))
  | _ => false

/-- The phone pattern of the register schema: an optional leading plus
followed by 8 to 20 characters drawn from digits, spaces and dashes. -/
def phoneOk (s : String) : Bool :=
  let t := match s.data with
    | c :: cs => if c == '+' then cs else c :: cs
    | [] => []
  decide (8 ≤ t.length) && decide (t.length ≤ 20) &&
    t.all (fun c => c.isDigit || c == ' ' || c == '-')

/-- The JSON body of a register request, with every schema key
possibly absent. -/
structure RegisterBody where
  email : Option String := none
  password : Option String := none
  fullName : Option String := none
  phone : Option String := none
  role : Option String := none
deriving DecidableEq, Repr

/-- Validation of a register body against `registerSchema`: email
required and email-shaped, password required with length 8 to 128,
fullName required with length 2 to 100, phone optional matching the
pattern, role optional and only the literal customer. -/
def registerValidate (b : RegisterBody) : Bool :=
  (match b.email with | some e => joiEmail e | none => false) &&
  (match b.password with | some p => decide (8 ≤ p.data.length) && decide (p.data.length ≤ 128) | none => false) &&
  (match b.fullName with | some n => decide (2 ≤ n.data.length) && decide (n.data.length ≤ 100) | none => false) &&
  (match b.phone with | some ph => phoneOk ph | none => true) &&
  (match b.role with | some r => r == "customer" | none => true)

/-- The register route: the validateBody middleware (modelled from the
spec, its source being absent from the snapshot: a body the Joi schema
rejects is answered with a validation error and the controller never
runs), then the register controller, which replaces any role outside
customer and manager by customer and calls the service. -/
def exposedRegister (s : Store) (b : RegisterBody) : Except AuthErr RegisterView × Store :=
  if registerValidate b then
    match b.email, b.password, b.fullName with
    | some email, some password, some fullName =>
      let userRole := match b.role with
        | some r => if r == "customer" || r == "manager" then r else "customer"
        | none => "customer"
      register s email password fullName b.phone userRole
    | _, _, _ => (.error (.validation "Validation failed"), s)
  else (.error (.validation "Validation failed"), s)

/-- The JSON body of a login request. The schema knows the keys email
and password; the controller reads the key identifier, so it is carried
too (a body containing it fails validation as an unknown key). -/
structure LoginBody where
  email : Option String := none
  password : Option String := none
  identifier : Option String := none
deriving DecidableEq, Repr

/-- Validation of a login body against `loginSchema`: email required and
email-shaped, password required and nonempty, no unknown keys. -/
def loginValidate (b : LoginBody) : Bool :=
  (match b.email with | some e => joiEmail e | none => false) &&
  (match b.password with | some p => p != "" | none => false) &&
  b.identifier.isNone

/-- The login route: the validateBody middleware (modelled from the spec
as for `exposedRegister`), then the login controller. The controller
destructures `identifier` and `password` from the body and passes the
object `{identifier, password}` to the service, whose parameter list
destructures `email` — an absent property — so the service always
receives an undefined email. -/
def exposedLogin (s : Store) (b : LoginBody) (newToken : String) (now lifetime : Nat) :
    Except AuthErr LoginResult × Store :=
  if loginValidate b then
    match b.password with
    | some password => login s none password newToken now lifetime
    | none => (.error (.validation "Validation failed"), s)
  else (.error (.validation "Validation failed"), s)

/-! ## Concrete fixtures used by the closed theorems and witnesses -/

/-- An empty database. -/
def emptyStore : Store := ⟨[], [], 1, 1⟩

/-- A Google-only account: no password hash, linked Google id. -/
def fedUser : User := ⟨1, "fed@example.com", none, "Fed", none, "customer", none, true, some "g1", none⟩

/-- A store holding only the Google-only account. -/
def fedStore : Store := ⟨[fedUser], [], 2, 1⟩

/-- A password-based account with hash of goodpw123. -/
def pwUser : User := ⟨1, "pat@example.com", some (argon2Hash "goodpw123"), "Pat", none, "customer", none, false, none, none⟩

/-- A store holding only the password-based account. -/
def pwStore : Store := ⟨[pwUser], [], 2, 1⟩

/-- An unrevoked refresh-token record for user 1 expiring at instant 1000. -/
def boundaryToken : RefreshTokenRecord := ⟨1, 1, hashToken "tok3", 1000, false⟩

/-- A store holding the Google-only account and its token expiring at 1000. -/
def boundaryStore : Store := ⟨[fedUser], [boundaryToken], 2, 2⟩

/-- A password-based account that already has an avatar. -/
def avatarUser : User := ⟨1, "bob@example.com", some (argon2Hash "pw123456"), "Bob", none, "customer", none, false, none, some "old.png"⟩

/-- A store holding only the avatar-bearing account. -/
def avatarStore : Store := ⟨[avatarUser], [], 2, 1⟩

/-- A revoked refresh-token record for user 1, far from expiry. -/
def revokedToken : RefreshTokenRecord := ⟨2, 1, hashToken "tokR", 5000, true⟩

/-- A store holding the Google-only account and its revoked token. -/
def orderStore : Store := ⟨[fedUser], [revokedToken], 2, 3⟩

/-- A second, password-based account with id 2. -/
def otherUser : User := ⟨2, "other@example.com", some (argon2Hash "pw2secret"), "Other", none, "customer", none, true, none, none⟩

/-- An unrevoked token owned by user 1. -/
def tokenA : RefreshTokenRecord := ⟨1, 1, hashToken "tA", 99999, false⟩

/-- An unrevoked token owned by user 2. -/
def tokenB : RefreshTokenRecord := ⟨2, 2, hashToken "tB", 99999, false⟩

/-- A store holding two users, each owning one live refresh token. -/
def twoUserStore : Store := ⟨[fedUser, otherUser], [tokenA, tokenB], 3, 3⟩

/-! ## Helper lemmas -/

theorem find?_map_pres {α : Type} (f : α → α) (p : α → Bool) (hf : ∀ x, p (f x) = p x) :
    ∀ (l : List α), (l.map f).find? p = (l.find? p).map f := by
  intro l
  induction l with
  | nil => rfl
  | cons a l ih =>
    simp only [List.map_cons, List.find?_cons, hf a]
    cases hpa : p a
    · exact ih
    · rfl

theorem findRefreshToken_decomp (s : Store) (h : String) (rec : RefreshTokenRecord) (u : User)
    (hyp : findRefreshToken s h = some (rec, u)) :
    s.tokens.find? (fun r => r.tokenHash == h) = some rec ∧
    s.users.find? (fun x => x.id == rec.userId) = some u := by
  unfold findRefreshToken at hyp
  cases hfind : s.tokens.find? (fun r => r.tokenHash == h) <;> rw [hfind] at hyp
  · simp at hyp
  · rename_i r0
    change Option.map (fun x => (r0, x)) (s.users.find? (fun x => x.id == r0.userId)) = some (rec, u) at hyp
    cases hu : s.users.find? (fun x => x.id == r0.userId) <;> rw [hu] at hyp
    · simp at hyp
    · rename_i u0
      simp only [Option.map_some', Option.some.injEq, Prod.mk.injEq] at hyp
      obtain ⟨h1, h2⟩ := hyp
      constructor
      · exact congrArg some h1
      · rw [← h1, hu, h2]

theorem refresh_required_eq (s : Store) (rt : Option String) (now : Nat)
    (h : jsTruthy rt = false) :
    refreshAccessToken s rt now = (.error (.unauthorized "Refresh token required."), s) := by
  simp [refreshAccessToken, h]

theorem refresh_invalid_eq (s : Store) (t : String) (now : Nat)
    (ht : t ≠ "") (hfind : findRefreshToken s (hashToken t) = none) :
    refreshAccessToken s (some t) now = (.error (.unauthorized "Invalid refresh token."), s) := by
  simp only [refreshAccessToken, jsTruthy, Option.getD_some]
  rw [if_neg (by simp [ht]), hfind]

theorem refresh_revoked_eq (s : Store) (t : String) (now : Nat)
    (rec : RefreshTokenRecord) (u : User)
    (ht : t ≠ "") (hfind : findRefreshToken s (hashToken t) = some (rec, u))
    (hrev : rec.isRevoked = true) :
    refreshAccessToken s (some t) now
      = (.error (.unauthorized "Refresh token has been revoked."), s) := by
  simp only [refreshAccessToken, jsTruthy, Option.getD_some]
  rw [if_neg (by simp [ht]), hfind]
  simp [hrev]

theorem refresh_expired_eq (s : Store) (t : String) (now : Nat)
    (rec : RefreshTokenRecord) (u : User)
    (ht : t ≠ "") (hfind : findRefreshToken s (hashToken t) = some (rec, u))
    (hrev : rec.isRevoked = false) (hexp : rec.expiresAt < now) :
    refreshAccessToken s (some t) now
      = (.error (.unauthorized "Refresh token has expired."), s) := by
  simp only [refreshAccessToken, jsTruthy, Option.getD_some]
  rw [if_neg (by simp [ht]), hfind]
  simp [hrev, hexp]

theorem refresh_ok_eq (s : Store) (t : String) (now : Nat)
    (rec : RefreshTokenRecord) (u : User)
    (ht : t ≠ "") (hfind : findRefreshToken s (hashToken t) = some (rec, u))
    (hrev : rec.isRevoked = false) (hexp : ¬ rec.expiresAt < now) :
    refreshAccessToken s (some t) now
      = (.ok ⟨generateAccessToken rec.userId u.email u.role u.tenantId,
              ⟨rec.userId, u.email, u.fullName, u.role, u.tenantId⟩⟩, s) := by
  simp only [refreshAccessToken, jsTruthy, Option.getD_some]
  rw [if_neg (by simp [ht]), hfind]
  simp [hrev, hexp]

theorem refresh_cases (s : Store) (t : String) (now : Nat) (res : Except AuthErr RefreshResult × Store)
    (h : refreshAccessToken s (some t) now = res) (ht : t ≠ "") :
    (findRefreshToken s (hashToken t) = none ∧
      res = (.error (.unauthorized "Invalid refresh token."), s)) ∨
    (∃ rec u, findRefreshToken s (hashToken t) = some (rec, u) ∧
      ((rec.isRevoked = true ∧ res = (.error (.unauthorized "Refresh token has been revoked."), s)) ∨
       (rec.isRevoked = false ∧ rec.expiresAt < now ∧
         res = (.error (.unauthorized "Refresh token has expired."), s)) ∨
       (rec.isRevoked = false ∧ ¬ rec.expiresAt < now ∧
         res = (.ok ⟨generateAccessToken rec.userId u.email u.role u.tenantId,
                     ⟨rec.userId, u.email, u.fullName, u.role, u.tenantId⟩⟩, s)))) := by
  cases hfind : findRefreshToken s (hashToken t)
  · exact .inl ⟨rfl, by rw [← h, refresh_invalid_eq s t now ht hfind]⟩
  · rename_i pr
    obtain ⟨rec, u⟩ := pr
    refine .inr ⟨rec, u, rfl, ?_⟩
    cases hrev : rec.isRevoked
    · by_cases hexp : rec.expiresAt < now
      · exact .inr (.inl ⟨rfl, hexp, by rw [← h, refresh_expired_eq s t now rec u ht hfind hrev hexp]⟩)
      · exact .inr (.inr ⟨rfl, hexp, by rw [← h, refresh_ok_eq s t now rec u ht hfind hrev hexp]⟩)
    · exact .inl ⟨rfl, by rw [← h, refresh_revoked_eq s t now rec u ht hfind hrev]⟩

theorem string_append_data (a b : String) : (a ++ b).data = a.data ++ b.data := by
  cases a
  cases b
  rfl

theorem login_ok_tokens (s : Store) (email : Option String) (pw tok : String)
    (now life : Nat) (r : LoginResult) (s2 : Store)
    (h : login s email pw tok now life = (.ok r, s2)) :
    r.refreshToken = tok ∧
    ∃ uid, s2.tokens = ⟨s.nextTokenId, uid, hashToken tok, now + life, false⟩ :: s.tokens := by
  unfold login at h
  split at h
  · simp at h
  · simp at h
  · split at h
    · simp at h
    · simp at h
    · rename_i user _ _ _
      simp only [generateRefreshToken, createRefreshToken, Prod.mk.injEq, Except.ok.injEq] at h
      obtain ⟨hr, hs⟩ := h
      refine ⟨by rw [← hr], user.id, ?_⟩
      rw [← hs]

theorem resolveGoogleUser_snd (s : Store) (payload : GooglePayload) (em : String) :
    (resolveGoogleUser s payload em).2.tokens = s.tokens ∧
    (resolveGoogleUser s payload em).2.nextTokenId = s.nextTokenId := by
  unfold resolveGoogleUser
  split
  · exact ⟨rfl, rfl⟩
  · split
    · unfold update
      split
      · exact ⟨rfl, rfl⟩
      · exact ⟨rfl, rfl⟩
    · exact ⟨rfl, rfl⟩

theorem googleSignIn_ok_tokens (s : Store) (cid : Option String)
    (verified : Option GooglePayload) (tok : String) (now life : Nat)
    (g : LoginResult) (s3 : Store)
    (h : googleSignIn s cid verified tok now life = (.ok g, s3)) :
    g.refreshToken = tok ∧
    ∃ uid, s3.tokens = ⟨s.nextTokenId, uid, hashToken tok, now + life, false⟩ :: s.tokens := by
  unfold googleSignIn at h
  split at h
  · simp at h
  · split at h
    · simp at h
    · split at h
      · simp at h
      · split at h
        · simp at h
        · rename_i hcid verified payload hne xres user s2 heq
          simp only [generateRefreshToken, createRefreshToken, Prod.mk.injEq,
            Except.ok.injEq] at h
          obtain ⟨hg, hs⟩ := h
          have ht1 : s2.tokens = s.tokens := by
            have hx := (resolveGoogleUser_snd s payload (payload.email.getD "")).1
            rw [heq] at hx
            exact hx
          have ht2 : s2.nextTokenId = s.nextTokenId := by
            have hx := (resolveGoogleUser_snd s payload (payload.email.getD "")).2
            rw [heq] at hx
            exact hx
          refine ⟨by rw [← hg], user.id, ?_⟩
          rw [← hs, ht1, ht2]

theorem update_found (s : Store) (id0 : Nat) (d : UpdateData) (u : User)
    (hd : d.hasFields = true) (hfid : s.users.find? (fun x => x.id == id0) = some u) :
    update s id0 d = (some (applyUpdate d u),
      { s with users := s.users.map (fun x => if x.id == id0 then applyUpdate d x else x) }) := by
  have hp : ∀ x : User, ((if x.id == id0 then applyUpdate d x else x).id == id0) = (x.id == id0) := by
    intro x
    cases hx : x.id == id0 <;> simp [hx, applyUpdate]
  have hu : (u.id == id0) = true := by simpa using List.find?_some hfid
  have hfm := find?_map_pres (fun x : User => if x.id == id0 then applyUpdate d x else x)
    (fun x => x.id == id0) hp s.users
  unfold update
  rw [if_pos hd]
  show (List.find? (fun x : User => x.id == id0)
      (s.users.map (fun x : User => if x.id == id0 then applyUpdate d x else x)),
    { s with users := s.users.map (fun x : User => if x.id == id0 then applyUpdate d x else x) })
    = (some (applyUpdate d u),
       { s with users := s.users.map (fun x : User => if x.id == id0 then applyUpdate d x else x) })
  rw [hfm, hfid]
  simp only [Option.map_some']
  rw [if_pos hu]

theorem findRefreshToken_logoutAll (s : Store) (uid : Nat) (h : String)
    (rec : RefreshTokenRecord) (u : User)
    (hfind : findRefreshToken s h = some (rec, u)) :
    findRefreshToken (logoutAll s uid) h
      = some (if rec.userId == uid then { rec with isRevoked := true } else rec, u) := by
  obtain ⟨htok, huser⟩ := findRefreshToken_decomp s h rec u hfind
  have hp : ∀ x : RefreshTokenRecord,
      ((if x.userId == uid then { x with isRevoked := true } else x).tokenHash == h)
        = (x.tokenHash == h) := by
    intro x
    cases hx : x.userId == uid <;> simp [hx]
  unfold findRefreshToken logoutAll revokeAllUserTokens
  simp only []
  rw [find?_map_pres _ _ hp s.tokens, htok]
  cases hx : rec.userId == uid <;> simp only [hx, if_true, if_false, Bool.false_eq_true,
    Option.map_some', Option.some_bind] <;> rw [huser] <;> rfl

theorem create_users_eq (s : Store) (e : String) (pwh : Option String) (fn : String)
    (ph : Option String) (ro : String) (t : Option Nat) (g a : Option String) :
    (create s e pwh fn ph ro t g a).2.users = (create s e pwh fn ph ro t g a).1 :: s.users := rfl

theorem create_fst_email (s : Store) (e : String) (pwh : Option String) (fn : String)
    (ph : Option String) (ro : String) (t : Option Nat) (g a : Option String) :
    (create s e pwh fn ph ro t g a).1.email = toLowerCase e := rfl

/-! ## Claim theorems and witnesses -/


/-- C1: the claim states that register followed by the exposed login with
the same credentials succeeds with a matching user view. In the code the
login controller forwards the object `{identifier, password}` while the
service destructures `email` from it, so the service always receives an
undefined email and `findByEmail` throws a TypeError at
`email.toLowerCase()`: the exposed login never succeeds. This theorem
evaluates the code at the failing input: a successful registration
followed by the exposed login with the exact registered credentials
crashes with the TypeError instead of returning the user view. -/
theorem register_then_exposed_login_crashes :
    (register emptyStore "alice@example.com" "hunter2xyz" "Alice" none "customer").1
      = .ok ⟨1, "alice@example.com", "Alice", "customer"⟩ ∧
    exposedLogin (register emptyStore "alice@example.com" "hunter2xyz" "Alice" none "customer").2
        ⟨some "alice@example.com", some "hunter2xyz", none⟩ "tok1" 0 604800000
      = (.error (.typeError "Cannot read properties of undefined (reading toLowerCase)"),
         (register emptyStore "alice@example.com" "hunter2xyz" "Alice" none "customer").2) := by
  exact ⟨rfl, rfl⟩

/-- C2: the claim states that a login against an absent user, an absent
password hash, or a failing verification all surface the one
undifferentiated InvalidCredentials error and never any other kind. The
absent-user and failed-verification paths do raise the identical error
value, but a user with a null password hash reaches
`argon2.verify(null, password)`, which throws a TypeError — a different
error kind (a 500), violating the claim. This theorem evaluates the code
at the failing input (a Google-only account) and at the two handled
paths. -/
theorem login_null_hash_typeerror :
    login fedStore (some "fed@example.com") "whatever" "tok" 0 1000
      = (.error (.typeError "argon2 verify: hash must be a string"), fedStore) ∧
    (login fedStore (some "absent@example.com") "whatever" "tok" 0 1000).1
      = .error (.unauthorized "Invalid email or password.") ∧
    (login pwStore (some "pat@example.com") "wrongpw" "tok" 0 1000).1
      = .error (.unauthorized "Invalid email or password.") := by
  exact ⟨rfl, rfl, rfl⟩

/-- C3 counterexample: the claim states that refresh fails with
TokenExpired when now is greater than or equal to the expiry, including
the boundary instant now = expiry. The code tests
`new Date(expires_at) < new Date()`, which is false at the boundary: a
refresh at the exact expiry instant of an unrevoked token succeeds. -/
theorem refresh_at_expiry_instant_succeeds :
    refreshAccessToken boundaryStore (some "tok3") 1000
      = (.ok ⟨⟨1, "fed@example.com", "customer", none⟩,
              ⟨1, "fed@example.com", "Fed", "customer", none⟩⟩, boundaryStore) := by
  exact rfl

/-- C4 counterexample: the claim states that linking updates the avatar
only if the assertion supplies one and the user has none. The code sets
`avatarUrl: picture || user.avatar_url`, so when the assertion supplies
a picture it overwrites an existing avatar: after a federated login for
a user whose avatar is old.png with an assertion picture new.png, the
stored avatar is new.png, not old.png. -/
theorem google_link_avatar_overwritten :
    (googleSignIn avatarStore (some "cid")
        (some ⟨"g123", some "bob@example.com", some "Bob", some "new.png"⟩)
        "tok4" 0 1000).2.users.map User.avatarUrl = [some "new.png"] := by
  exact rfl

/-- C5: the claim states that changePassword fails with NotFound when no
user with the id exists. The code evaluates
`(await authRepository.findById(userId)).email`, so a missing user makes
the member access throw a TypeError before the NotFound guard is ever
reached; the guard itself is unreachable. The other two behaviors of the
claim hold: a Google-only account (no hash) sets the password without a
current-password check, and a wrong current password on a password-based
account raises the InvalidCredentials kind. This theorem evaluates all
three paths. -/
theorem changePassword_missing_user_typeerror :
    changePassword emptyStore 7 (some "x") "newpassword"
      = (.error (.typeError "Cannot read properties of null (reading email)"), emptyStore) ∧
    (changePassword fedStore 1 none "newpassword").1 = .ok "Password changed successfully." ∧
    ((changePassword fedStore 1 none "newpassword").2.users.map User.passwordHash
      = [some (argon2Hash "newpassword")]) ∧
    (changePassword pwStore 1 (some "wrongpw") "newpassword").1
      = .error (.unauthorized "Current password is incorrect.") := by
  exact ⟨rfl, rfl, rfl, rfl⟩

/-- C10 counterexample: the claim states that a requested role outside
customer and manager is silently replaced by customer before the user
record is created. But the validation schema of the register route only
admits an absent role or the literal customer, so a request naming
super_admin is rejected by validation: no replacement happens and no
user record is created. -/
theorem exposed_register_super_admin_rejected :
    exposedRegister emptyStore ⟨some "eve@example.com", some "password123", some "Eve", none, some "super_admin"⟩
      = (.error (.validation "Validation failed"), emptyStore) ∧
    emptyStore.users = [] := by
  exact ⟨rfl, rfl⟩

/-- C3 (amended): refresh applies its checks in the claimed order — a
missing or empty token fails as required-token, an unmatched hash as
invalid-token, a revoked record as revoked (before the expiry check),
and an unrevoked record as expired — but the expiry test is strict
(`new Date(expires_at) < new Date()`): TokenExpired is raised exactly
when now is strictly after the expiry, and at the boundary instant
now = expiry the refresh succeeds. -/
theorem refresh_check_order (s : Store) (t : String) (now : Nat)
    (rec : RefreshTokenRecord) (u : User) :
    (refreshAccessToken s none now = (.error (.unauthorized "Refresh token required."), s)) ∧
    (refreshAccessToken s (some "") now = (.error (.unauthorized "Refresh token required."), s)) ∧
    (t ≠ "" → findRefreshToken s (hashToken t) = none →
      refreshAccessToken s (some t) now = (.error (.unauthorized "Invalid refresh token."), s)) ∧
    (t ≠ "" → findRefreshToken s (hashToken t) = some (rec, u) → rec.isRevoked = true →
      refreshAccessToken s (some t) now
        = (.error (.unauthorized "Refresh token has been revoked."), s)) ∧
    (t ≠ "" → findRefreshToken s (hashToken t) = some (rec, u) → rec.isRevoked = false →
      rec.expiresAt < now →
      refreshAccessToken s (some t) now = (.error (.unauthorized "Refresh token has expired."), s)) ∧
    (t ≠ "" → findRefreshToken s (hashToken t) = some (rec, u) → rec.isRevoked = false →
      now ≤ rec.expiresAt →
      refreshAccessToken s (some t) now
        = (.ok ⟨generateAccessToken rec.userId u.email u.role u.tenantId,
                ⟨rec.userId, u.email, u.fullName, u.role, u.tenantId⟩⟩, s)) := by
  refine ⟨refresh_required_eq s none now rfl,
    refresh_required_eq s (some "") now (by simp [jsTruthy]), ?_, ?_, ?_, ?_⟩
  · intro ht hfind
    exact refresh_invalid_eq s t now ht hfind
  · intro ht hfind hrev
    exact refresh_revoked_eq s t now rec u ht hfind hrev
  · intro ht hfind hrev hexp
    exact refresh_expired_eq s t now rec u ht hfind hrev hexp
  · intro ht hfind hrev hexp
    exact refresh_ok_eq s t now rec u ht hfind hrev (Nat.not_lt.mpr hexp)

/-- C4 (amended): when a federated assertion matches no user by subject
id but matches an existing user by email, the core links the account:
the stored record gains the external subject id and verified=true, its
password hash is preserved (the update never touches the hash column,
so linking never clears or requires a password), and the avatar is set
to the assertion picture whenever the assertion supplies a nonempty
one — overwriting any existing avatar — and kept otherwise. -/
theorem google_link_preserves_password (s : Store) (cid : String) (payload : GooglePayload)
    (em : String) (u : User) (tok : String) (now life : Nat)
    (hcid : cid ≠ "") (hem : payload.email = some em) (hemne : em ≠ "")
    (hgid : findByGoogleId s payload.sub = none)
    (huser : findByEmailS s em = some u)
    (hfid : s.users.find? (fun x => x.id == u.id) = some u) :
    (googleSignIn s (some cid) (some payload) tok now life).1
      = .ok ⟨⟨u.id, u.email, u.fullName, u.role, u.tenantId, jsOr payload.picture u.avatarUrl⟩,
             generateAccessToken u.id u.email u.role u.tenantId, tok, now + life⟩ ∧
    (googleSignIn s (some cid) (some payload) tok now life).2.users
      = s.users.map (fun x => if x.id == u.id then
          { x with googleId := some payload.sub, isVerified := true,
                   avatarUrl := jsOr payload.picture u.avatarUrl } else x) ∧
    (∀ x, x ∈ (googleSignIn s (some cid) (some payload) tok now life).2.users →
      ∃ x0, x0 ∈ s.users ∧ x.passwordHash = x0.passwordHash ∧ x.id = x0.id ∧ x.email = x0.email) ∧
    (∀ x, x ∈ (googleSignIn s (some cid) (some payload) tok now life).2.users → x.id = u.id →
      x.googleId = some payload.sub ∧ x.isVerified = true ∧
      x.avatarUrl = jsOr payload.picture u.avatarUrl) := by
  have hres : resolveGoogleUser s payload em
      = (some (applyUpdate
          { googleId := some (some payload.sub)
            avatarUrl := some (jsOr payload.picture u.avatarUrl)
            isVerified := some true } u),
        { s with users := s.users.map (fun x => if x.id == u.id then applyUpdate
            { googleId := some (some payload.sub)
              avatarUrl := some (jsOr payload.picture u.avatarUrl)
              isVerified := some true } x else x) }) := by
    unfold resolveGoogleUser
    rw [hgid, huser]
    exact update_found s u.id _ u rfl hfid
  have hmain : googleSignIn s (some cid) (some payload) tok now life
      = (.ok ⟨⟨u.id, u.email, u.fullName, u.role, u.tenantId, jsOr payload.picture u.avatarUrl⟩,
              generateAccessToken u.id u.email u.role u.tenantId, tok, now + life⟩,
         createRefreshToken
           { s with users := s.users.map (fun x => if x.id == u.id then applyUpdate
               { googleId := some (some payload.sub)
                 avatarUrl := some (jsOr payload.picture u.avatarUrl)
                 isVerified := some true } x else x) }
           u.id (hashToken tok) (now + life)) := by
    have step1 : googleSignIn s (some cid) (some payload) tok now life
        = (if !(jsTruthy payload.email) then
            (.error (.badRequest "Google account does not have an email address."), s)
          else
            match resolveGoogleUser s payload (payload.email.getD "") with
            | (none, s2) =>
              (.error (.typeError "Cannot read properties of undefined (reading id)"), s2)
            | (some user, s2) =>
              (.ok ⟨⟨user.id, user.email, user.fullName, user.role, user.tenantId, user.avatarUrl⟩,
                    generateAccessToken user.id user.email user.role user.tenantId,
                    (generateRefreshToken tok now life).refreshToken,
                    (generateRefreshToken tok now life).expiresAt⟩,
               createRefreshToken s2 user.id (generateRefreshToken tok now life).refreshTokenHash
                 (generateRefreshToken tok now life).expiresAt)) := by
      unfold googleSignIn
      rw [if_neg (by simp [jsTruthy, hcid])]
    rw [step1, if_neg (by rw [hem]; simp [jsTruthy, hemne]), hem]
    simp only [Option.getD_some]
    rw [hres]
    rfl
  refine ⟨by rw [hmain], by rw [hmain]; rfl, ?_, ?_⟩
  · intro x hx
    rw [hmain] at hx
    have hx2 : x ∈ s.users.map (fun x => if x.id == u.id then applyUpdate
        { googleId := some (some payload.sub)
          avatarUrl := some (jsOr payload.picture u.avatarUrl)
          isVerified := some true } x else x) := hx
    obtain ⟨x0, hx0, hfx⟩ := List.mem_map.mp hx2
    refine ⟨x0, hx0, ?_⟩
    cases hxid : x0.id == u.id <;> simp only [hxid, Bool.false_eq_true, if_false, if_true] at hfx <;>
      rw [← hfx]
    · exact ⟨rfl, rfl, rfl⟩
    · exact ⟨rfl, rfl, rfl⟩
  · intro x hx hid
    rw [hmain] at hx
    have hx2 : x ∈ s.users.map (fun x => if x.id == u.id then applyUpdate
        { googleId := some (some payload.sub)
          avatarUrl := some (jsOr payload.picture u.avatarUrl)
          isVerified := some true } x else x) := hx
    obtain ⟨x0, hx0, hfx⟩ := List.mem_map.mp hx2
    cases hxid : x0.id == u.id <;> simp only [hxid, Bool.false_eq_true, if_false, if_true] at hfx
    · exfalso
      rw [← hfx] at hid
      rw [hid] at hxid
      simp at hxid
    · rw [← hfx]
      exact ⟨rfl, rfl, rfl⟩

/-- C6: a successful refresh does not rotate the refresh token. The
store returned by a successful refresh is the store it was given (no
refresh-token record is written), and the same token still refreshes
successfully at any later instant that is not past the expiry of its
record, until explicit revocation changes the store. -/
theorem refresh_no_rotation (s : Store) (t : String) (now : Nat) (r : RefreshResult) (s2 : Store)
    (h : refreshAccessToken s (some t) now = (.ok r, s2)) :
    s2 = s ∧ s2.tokens = s.tokens ∧
    (∀ now2 rec u, findRefreshToken s (hashToken t) = some (rec, u) →
      now2 ≤ rec.expiresAt → refreshAccessToken s (some t) now2 = (.ok r, s)) := by
  have ht : t ≠ "" := by
    intro he
    rw [refresh_required_eq s (some t) now (by simp [jsTruthy, he])] at h
    simp at h
  rcases refresh_cases s t now _ h ht with ⟨_, hres⟩ | ⟨rec, u, hfind, hbr⟩
  · simp at hres
  · rcases hbr with ⟨_, hres⟩ | ⟨_, _, hres⟩ | ⟨hrev, hexp, hres⟩
    · simp at hres
    · simp at hres
    · simp only [Prod.mk.injEq, Except.ok.injEq] at hres
      obtain ⟨hr, hs⟩ := hres
      refine ⟨hs, by rw [hs], ?_⟩
      intro now2 rec2 u2 hfind2 hle
      rw [hfind] at hfind2
      simp only [Option.some.injEq, Prod.mk.injEq] at hfind2
      obtain ⟨hrec2, _⟩ := hfind2
      have hexp2 : ¬ rec.expiresAt < now2 := by
        rw [← hrec2] at hle
        omega
      rw [refresh_ok_eq s t now2 rec u ht hfind hrev hexp2, hr]

/-- C7: after logoutAll(userId), the user rows are untouched and every
refresh-token record owned by that user is revoked regardless of its
expiry, so refreshing any of those tokens fails as revoked; records of
every other owner are unchanged and a refresh with their tokens returns
the same outcome as before the logoutAll. -/
theorem logoutAll_revokes_all (s : Store) (uid : Nat) (t : String) (now : Nat) :
    (logoutAll s uid).users = s.users ∧
    (logoutAll s uid).tokens
      = s.tokens.map (fun r => if r.userId == uid then { r with isRevoked := true } else r) ∧
    (∀ rec u, findRefreshToken s (hashToken t) = some (rec, u) → rec.userId = uid → t ≠ "" →
      refreshAccessToken (logoutAll s uid) (some t) now
        = (.error (.unauthorized "Refresh token has been revoked."), logoutAll s uid)) ∧
    (∀ rec u, findRefreshToken s (hashToken t) = some (rec, u) → rec.userId ≠ uid →
      (refreshAccessToken (logoutAll s uid) (some t) now).1
        = (refreshAccessToken s (some t) now).1) := by
  refine ⟨rfl, rfl, ?_, ?_⟩
  · intro rec u hfind howner ht
    have hfind2 := findRefreshToken_logoutAll s uid (hashToken t) rec u hfind
    rw [if_pos (by simp [howner])] at hfind2
    exact refresh_revoked_eq (logoutAll s uid) t now _ u ht hfind2 rfl
  · intro rec u hfind howner
    by_cases ht : t = ""
    · subst ht
      rw [refresh_required_eq (logoutAll s uid) (some "") now (by simp [jsTruthy]),
          refresh_required_eq s (some "") now (by simp [jsTruthy])]
    · have hfind2 := findRefreshToken_logoutAll s uid (hashToken t) rec u hfind
      rw [if_neg (by simp [howner])] at hfind2
      cases hrev : rec.isRevoked
      · by_cases hexp : rec.expiresAt < now
        · rw [refresh_expired_eq (logoutAll s uid) t now rec u ht hfind2 hrev hexp,
              refresh_expired_eq s t now rec u ht hfind hrev hexp]
        · rw [refresh_ok_eq (logoutAll s uid) t now rec u ht hfind2 hrev hexp,
              refresh_ok_eq s t now rec u ht hfind hrev hexp]
      · rw [refresh_revoked_eq (logoutAll s uid) t now rec u ht hfind2 hrev,
            refresh_revoked_eq s t now rec u ht hfind hrev]

/-- C8: the plaintext refresh token is never persisted. The digest is
deterministic, injective and never equal to the plaintext; a successful
login or federated login appends exactly one refresh-token record whose
stored hash is the digest of the returned plaintext; refresh persists
nothing; lookup only ever returns a record whose stored hash equals the
queried digest; and logout revokes by digest equality. -/
theorem refresh_token_hash_only :
    (∀ t, hashToken t ≠ t) ∧
    (∀ t1 t2, hashToken t1 = hashToken t2 → t1 = t2) ∧
    (∀ s email pw tok now life r s2, login s email pw tok now life = (.ok r, s2) →
      r.refreshToken = tok ∧
      ∃ uid, s2.tokens = ⟨s.nextTokenId, uid, hashToken tok, now + life, false⟩ :: s.tokens) ∧
    (∀ s cid verified tok now life g s3, googleSignIn s cid verified tok now life = (.ok g, s3) →
      g.refreshToken = tok ∧
      ∃ uid, s3.tokens = ⟨s.nextTokenId, uid, hashToken tok, now + life, false⟩ :: s.tokens) ∧
    (∀ s h0 rec u, findRefreshToken s h0 = some (rec, u) → rec.tokenHash = h0) ∧
    (∀ s t now, (refreshAccessToken s (some t) now).2 = s) ∧
    (∀ s t, t ≠ "" → logout s (some t) = revokeRefreshToken s (hashToken t)) := by
  refine ⟨?_, ?_, login_ok_tokens, googleSignIn_ok_tokens, ?_, ?_, ?_⟩
  · intro t h
    have h2 := congrArg (fun x : String => x.data.length) h
    simp only [hashToken, string_append_data, List.length_append] at h2
    have h7 : ("sha256:".data.length) = 7 := rfl
    rw [h7] at h2
    omega
  · intro t1 t2 h
    have h2 := congrArg String.data h
    simp only [hashToken, string_append_data] at h2
    have h3 := List.append_cancel_left h2
    cases t1
    cases t2
    exact congrArg String.mk h3
  · intro s h0 rec u hfind
    obtain ⟨htok, _⟩ := findRefreshToken_decomp s h0 rec u hfind
    have := List.find?_some htok
    simpa using this
  · intro s t now
    by_cases ht : t = ""
    · subst ht
      rw [refresh_required_eq s (some "") now (by simp [jsTruthy])]
    · rcases refresh_cases s t now (refreshAccessToken s (some t) now) rfl ht with
        ⟨_, hres⟩ | ⟨rec, u, _, hbr⟩
      · rw [hres]
      · rcases hbr with ⟨_, hres⟩ | ⟨_, _, hres⟩ | ⟨_, _, hres⟩ <;> rw [hres]
  · intro s t ht
    simp [logout, jsTruthy, ht]

/-- C9: registering twice with the same email in any letter case fails
the second time with the AccountExists conflict and leaves the store of
the first registration unchanged, so no second user record is created.
Stored emails are lowercased on creation and the lookup lowercases its
argument, so any case variant collides. -/
theorem register_twice_conflict (s : Store) (e1 e2 pw1 pw2 fn1 fn2 : String)
    (ph1 ph2 : Option String) (ro1 ro2 : String) (v : RegisterView) (s1 : Store)
    (h1 : register s e1 pw1 fn1 ph1 ro1 = (.ok v, s1))
    (h2 : toLowerCase e2 = toLowerCase e1) :
    register s1 e2 pw2 fn2 ph2 ro2
      = (.error (.conflict "An account with this email already exists."), s1) := by
  unfold register at h1 ⊢
  cases hf : findByEmailS s e1 <;> rw [hf] at h1
  · have hs1 : (create s e1 (some (argon2Hash pw1)) fn1 ph1 ro1 none none none).2 = s1 := by
      have := congrArg Prod.snd h1
      simpa using this
    have hfind2 : findByEmailS s1 e2
        = some (create s e1 (some (argon2Hash pw1)) fn1 ph1 ro1 none none none).1 := by
      unfold findByEmailS
      rw [← hs1, create_users_eq]
      apply List.find?_cons_of_pos
      rw [create_fst_email, h2]
      exact beq_self_eq_true _
    rw [hfind2]
  · simp at h1

/-- C10 (amended): every user record the exposed register operation
creates has role customer. The validation schema accepts only an absent
role or the literal customer, so a request naming any other role
(including manager and super_admin) fails validation, creates no user,
and is not silently replaced; an accepted request always reaches the
service with role customer. Register can never create a privileged
account. -/
theorem exposed_register_role_customer (s : Store) (b : RegisterBody)
    (v : RegisterView) (s2 : Store) (e : AuthErr) :
    (exposedRegister s b = (.error e, s2) → s2 = s) ∧
    (exposedRegister s b = (.ok v, s2) →
      ∃ u, s2.users = u :: s.users ∧ u.role = "customer" ∧ v.role = "customer") := by
  cases hval : registerValidate b
  · constructor
    · intro h
      unfold exposedRegister at h
      rw [if_neg (by simp [hval])] at h
      simpa using (congrArg Prod.snd h).symm
    · intro h
      unfold exposedRegister at h
      rw [if_neg (by simp [hval])] at h
      simp at h
  · have hval2 := hval
    unfold registerValidate at hval2
    simp only [Bool.and_eq_true] at hval2
    obtain ⟨⟨⟨⟨he, hpw⟩, hfn⟩, hph⟩, hrole⟩ := hval2
    cases hbe : b.email <;> rw [hbe] at he
    · simp at he
    · rename_i em
      cases hbp : b.password <;> rw [hbp] at hpw
      · simp at hpw
      · rename_i pw
        cases hbf : b.fullName <;> rw [hbf] at hfn
        · simp at hfn
        · rename_i fn
          have hred : exposedRegister s b = register s em pw fn b.phone "customer" := by
            unfold exposedRegister
            rw [if_pos hval, hbe, hbp, hbf]
            cases hbr : b.role
            · rfl
            · rename_i r
              rw [hbr] at hrole
              have hr : r = "customer" := by simpa using hrole
              subst hr
              rfl
          rw [hred]
          constructor
          · intro h
            unfold register at h
            split at h
            · simpa using (congrArg Prod.snd h).symm
            · simp only [create, Prod.mk.injEq, Except.ok.injEq] at h
              simp at h
          · intro h
            unfold register at h
            split at h
            · simp at h
            · simp only [create, Prod.mk.injEq, Except.ok.injEq] at h
              obtain ⟨hv, hs⟩ := h
              refine ⟨(create s em (some (argon2Hash pw)) fn b.phone "customer" none none none).1,
                ?_, rfl, ?_⟩
              · rw [← hs]
                rfl
              · rw [← hv]

/-- Witness for the C3 theorem at concrete stores: a revoked token fails
as revoked and a token past expiry fails as expired. -/
theorem refresh_check_order_witness :
    refreshAccessToken orderStore (some "tokR") 10
      = (.error (.unauthorized "Refresh token has been revoked."), orderStore) ∧
    refreshAccessToken boundaryStore (some "tok3") 2000
      = (.error (.unauthorized "Refresh token has expired."), boundaryStore) := by
  constructor
  · exact (refresh_check_order orderStore "tokR" 10 revokedToken fedUser).2.2.2.1
      (by decide) rfl rfl
  · exact (refresh_check_order boundaryStore "tok3" 2000 boundaryToken fedUser).2.2.2.2.1
      (by decide) rfl rfl (by decide)

/-- Witness for the C4 theorem: linking the avatar-bearing account to a
Google identity succeeds and returns the linked view. -/
theorem google_link_preserves_password_witness :
    (googleSignIn avatarStore (some "cid")
        (some ⟨"g123", some "bob@example.com", some "Bob", some "new.png"⟩)
        "tok4" 0 1000).1
      = .ok ⟨⟨1, "bob@example.com", "Bob", "customer", none, some "new.png"⟩,
             generateAccessToken 1 "bob@example.com" "customer" none, "tok4", 1000⟩ := by
  exact (google_link_preserves_password avatarStore "cid"
    ⟨"g123", some "bob@example.com", some "Bob", some "new.png"⟩ "bob@example.com" avatarUser
    "tok4" 0 1000 (by decide) rfl (by decide) rfl rfl rfl).1

/-- Witness for the C6 theorem: the token of `boundaryStore`, refreshed
successfully at instant 500, still refreshes at instant 700. -/
theorem refresh_no_rotation_witness :
    refreshAccessToken boundaryStore (some "tok3") 700
      = (.ok ⟨⟨1, "fed@example.com", "customer", none⟩,
              ⟨1, "fed@example.com", "Fed", "customer", none⟩⟩, boundaryStore) := by
  exact (refresh_no_rotation boundaryStore "tok3" 500
    ⟨⟨1, "fed@example.com", "customer", none⟩, ⟨1, "fed@example.com", "Fed", "customer", none⟩⟩
    boundaryStore rfl).2.2 700 boundaryToken fedUser rfl (by decide)

/-- Witness for the C7 theorem: after logoutAll of user 1, the token of
user 1 fails as revoked while the token of user 2 behaves as before. -/
theorem logoutAll_revokes_all_witness :
    refreshAccessToken (logoutAll twoUserStore 1) (some "tA") 5
      = (.error (.unauthorized "Refresh token has been revoked."), logoutAll twoUserStore 1) ∧
    (refreshAccessToken (logoutAll twoUserStore 1) (some "tB") 5).1
      = (refreshAccessToken twoUserStore (some "tB") 5).1 := by
  constructor
  · exact (logoutAll_revokes_all twoUserStore 1 "tA" 5).2.2.1 tokenA fedUser rfl rfl (by decide)
  · exact (logoutAll_revokes_all twoUserStore 1 "tB" 5).2.2.2 tokenB otherUser rfl (by decide)

/-- Witness for the C8 theorem: the digest differs from its plaintext,
and a concrete successful login stores exactly the digest of the
returned plaintext token. -/
theorem refresh_token_hash_only_witness :
    hashToken "tokW" ≠ "tokW" ∧
    (∃ uid, (login pwStore (some "pat@example.com") "goodpw123" "tokW" 0 604800000).2.tokens
      = ⟨pwStore.nextTokenId, uid, hashToken "tokW", 0 + 604800000, false⟩ :: pwStore.tokens) := by
  constructor
  · exact refresh_token_hash_only.1 "tokW"
  · exact (refresh_token_hash_only.2.2.1 pwStore (some "pat@example.com") "goodpw123" "tokW"
      0 604800000
      ⟨⟨1, "pat@example.com", "Pat", "customer", none, none⟩,
        generateAccessToken 1 "pat@example.com" "customer" none, "tokW", 604800000⟩
      (login pwStore (some "pat@example.com") "goodpw123" "tokW" 0 604800000).2 rfl).2

/-- Witness for the C9 theorem: registering Alice twice under two case
variants of the same email fails the second time with the conflict. -/
theorem register_twice_conflict_witness :
    register (register emptyStore "Alice@Example.com" "hunter2xyz" "Alice" none "customer").2
        "ALICE@EXAMPLE.COM" "otherpw12" "Alice2" none "customer"
      = (.error (.conflict "An account with this email already exists."),
         (register emptyStore "Alice@Example.com" "hunter2xyz" "Alice" none "customer").2) := by
  exact register_twice_conflict emptyStore "Alice@Example.com" "ALICE@EXAMPLE.COM" "hunter2xyz"
    "otherpw12" "Alice" "Alice2" none none "customer" "customer"
    ⟨1, "alice@example.com", "Alice", "customer"⟩
    (register emptyStore "Alice@Example.com" "hunter2xyz" "Alice" none "customer").2
    rfl rfl

/-- Witness for the C10 theorem: a valid registration without a role
creates exactly one user, whose role is customer. -/
theorem exposed_register_role_customer_witness :
    ∃ u, (exposedRegister emptyStore
        ⟨some "eve@example.com", some "password123", some "Eve", none, none⟩).2.users
      = u :: emptyStore.users ∧ u.role = "customer" ∧
      (⟨1, "eve@example.com", "Eve", "customer"⟩ : RegisterView).role = "customer" := by
  exact (exposed_register_role_customer emptyStore
      ⟨some "eve@example.com", some "password123", some "Eve", none, none⟩
      ⟨1, "eve@example.com", "Eve", "customer"⟩
      (exposedRegister emptyStore
        ⟨some "eve@example.com", some "password123", some "Eve", none, none⟩).2
      (.validation "Validation failed")).2 rfl


end Washco
